import Mathlib

/-!
Formal model of the toukon_elixir repository's test tooling.

This file embeds, as executable Lean definitions, the logic of:
- `lighthouse-test.js` : threshold evaluation of audit scores
  (`runLighthouseAudit`, lines 85-91 and 129-132);
- `integration-test.js` : the result aggregator, summary computation,
  JSON / HTML report rendering and the top-level runner
  (`generateComprehensiveReport`, `generateHTMLReport`,
  `runIntegrationTests`);
- `build.js` : the regex-based CSS / JS minifiers
  (`minifyCSS`, `minifyJS`).

Conventions: JavaScript objects used as string-keyed maps become
association lists in insertion order; JavaScript numbers become `Nat` /
`Int` with `Math.round` of nonnegative quotients modelled exactly as
`⌊x + 1/2⌋` in rational arithmetic; a JS function that either returns a
boolean or throws an `Error` becomes `Except String Bool` (the `String`
being `error.message`); file-system writes and `console.log` output are
side effects outside the scope of the embedded logic and are omitted.
-/

/-- Lookup in a JS object viewed as an association list; `obj[key]`
evaluates to `undefined` (here `none`) when the key is absent. -/
def jsLookup {α : Type} : List (String × α) → String → Option α
  | [], _ => none
  | (k₂, v) :: rest, k => if k₂ = k then some v else jsLookup rest k

/-- Property assignment `obj[key] = v` on a JS object: an existing key
keeps its position in insertion order and its value is replaced; a new
key is appended at the end. -/
def jsSet {α : Type} : List (String × α) → String → α → List (String × α)
  | [], k, v => [(k, v)]
  | (k₂, v₂) :: rest, k, v =>
    if k₂ = k then (k, v) :: rest else (k₂, v₂) :: jsSet rest k v

/-- The JS comparison `score >= threshold` where `threshold` may be
`undefined` (key absent from the config object): comparing a number with
`undefined` coerces `undefined` to NaN, and every comparison with NaN is
`false`. -/
def jsGe (score : Int) : Option Int → Bool
  | some t => decide (t ≤ score)
  | none => false

/-- The `CONFIG.thresholds` object of `lighthouse-test.js` (lines 21-26). -/
def lighthouseThresholds : List (String × Int) :=
  [("performance", 90), ("accessibility", 95), ("bestPractices", 90), ("seo", 95)]

/-- Line 130-132 of `lighthouse-test.js`:
`Object.entries(scores).every(([category, score]) => score >= CONFIG.thresholds[category])`. -/
def allPassed (scores thresholds : List (String × Int)) : Bool :=
  scores.all fun p => jsGe p.2 (jsLookup thresholds p.1)

/-- Status of one test suite (`'PASSED' | 'FAILED' | 'SKIPPED'` strings
in the source). -/
inductive Status where
  | PASSED
  | FAILED
  | SKIPPED
deriving DecidableEq, BEq, Repr

/-- The status string stored in the JS result objects. -/
def statusText : Status → String
  | .PASSED => "PASSED"
  | .FAILED => "FAILED"
  | .SKIPPED => "SKIPPED"

/-- One suite outcome as recorded by `runIntegrationTests`
(`integration-test.js` lines 327-399): a status, a description and
optional `error` / `details` properties. -/
structure SuiteResult where
  status : Status
  description : String
  error : Option String
  details : Option String
deriving DecidableEq, Repr

/-- Counts results with the given status, as in
`Object.values(results).filter(r => r.status === '...').length`
(`integration-test.js` lines 111-113). -/
def countStatus (s : Status) (rs : List (String × SuiteResult)) : Nat :=
  (rs.filter fun p => decide (p.2.status = s)).length

/-- The summary block of `generateComprehensiveReport`
(`integration-test.js` lines 109-114 and 122-125). -/
structure Summary where
  totalTestSuites : Nat
  passed : Nat
  failed : Nat
  skipped : Nat
  overallScore : Nat
deriving DecidableEq, Repr

/-- Floor of the base-2 logarithm, fuel-based so that it reduces in the
kernel; fuel `n` suffices because halving reaches 1 within `n` steps. -/
def log2Fuel : ℕ → ℕ → ℕ
  | 0, _ => 0
  | fuel + 1, n => if n < 2 then 0 else log2Fuel fuel (n / 2) + 1

/-- Floor of the base-2 logarithm of `n` (0 for `n = 0`). -/
def natLog2 (n : ℕ) : ℕ := log2Fuel n n

/-- Round-to-nearest, ties-to-even, of the quotient `n / d` (`d > 0`):
the rounding step of every IEEE-754 binary64 operation. -/
def rneDivNat (n d : ℕ) : ℕ :=
  let q := n / d
  let r := n % d
  if 2 * r < d then q
  else if d < 2 * r then q + 1
  else if q % 2 = 0 then q else q + 1

/-- Floor of the base-2 logarithm of the quotient `p / t`
(`p, t ≥ 1`): the estimate `log2 p - log2 t` is exact or one too
large, and is corrected by comparing `2^g` with `p / t`. -/
def quotLog2 (p t : ℕ) : ℤ :=
  let g : ℤ := (natLog2 p : ℤ) - (natLog2 t : ℤ)
  if 0 ≤ g then (if t * 2 ^ g.toNat ≤ p then g else g - 1)
  else (if t ≤ p * 2 ^ (-g).toNat then g else g - 1)

/-- The IEEE-754 binary64 value nearest to `p / t` (`t ≥ 1`), as a
mantissa–exponent pair `(m, w)` with value `m · 2^w`: the JS division
`p / t`. Round-to-nearest-even at 53 significand bits; exponents are
floored at `-1074`, the subnormal limit. Overflow to infinity is not
modelled (it needs values ≥ 2^1024, far above everything here). -/
def flDivNat (p t : ℕ) : ℕ × ℤ :=
  if p = 0 then (0, 0)
  else
    let e := quotLog2 p t
    let w : ℤ := if e - 52 ≤ -1074 then -1074 else e - 52
    if 0 ≤ w then (rneDivNat p (t * 2 ^ w.toNat), w)
    else (rneDivNat (p * 2 ^ (-w).toNat) t, w)

/-- The binary64 rounding of the exact product `v · 2^w` (`v : ℕ`), as
arises when a double `(m, w)` is multiplied by the exact small constant
100: the JS multiplication `x * 100`. -/
def flScaleNat (v : ℕ) (w : ℤ) : ℕ × ℤ :=
  if v = 0 then (0, 0)
  else
    let e : ℤ := (natLog2 v : ℤ) + w
    let w₂ : ℤ := if e - 52 ≤ -1074 then -1074 else e - 52
    if 0 ≤ w - w₂ then (v * 2 ^ (w - w₂).toNat, w₂)
    else (rneDivNat v (2 ^ (w₂ - w).toNat), w₂)

/-- ECMA `Math.round` of the nonnegative double `m · 2^w`: the nearest
integral value with ties toward `+∞`, i.e. `⌊m·2^w + 1/2⌋` computed
exactly on the rational value of the double. -/
def mathRoundNat (m : ℕ) (w : ℤ) : ℕ :=
  if 0 ≤ w then m * 2 ^ w.toNat
  else (2 * m + 2 ^ (-w).toNat) / 2 ^ (1 + (-w).toNat)

/-- Line 125 of `integration-test.js`:
`totalTests > 0 ? Math.round((passedTests / totalTests) * 100) : 0`,
with the double-precision arithmetic modelled exactly: the quotient
`passedTests / totalTests` rounds to binary64, the product with the
exact constant 100 rounds to binary64, and `Math.round` maps the
resulting double to the nearest integer, ties toward `+∞`. -/
def overallScoreOf (passed total : Nat) : Nat :=
  if 0 < total then
    let a := flDivNat passed total
    let b := flScaleNat (100 * a.1) a.2
    mathRoundNat b.1 b.2
  else 0

/-- The summary computed by `generateComprehensiveReport` from the
`results` object (`integration-test.js` lines 109-114, 122-125). -/
def summaryOf (rs : List (String × SuiteResult)) : Summary :=
  { totalTestSuites := rs.length
    passed := countStatus .PASSED rs
    failed := countStatus .FAILED rs
    skipped := countStatus .SKIPPED rs
    overallScore := overallScoreOf (countStatus .PASSED rs) rs.length }

/-- The static `CONFIG` object of `integration-test.js` (lines 23-27). -/
structure RunnerConfig where
  outputDir : String
  runLocal : Bool
  runDeployment : Bool

/-- Values of `CONFIG` in `integration-test.js`. -/
def CONFIG : RunnerConfig :=
  { outputDir := "./integration-test-reports", runLocal := true, runDeployment := true }

/-- Environment of one aggregated run: whether the `curl` probe of the
local server succeeds (modelled as fixed for the duration of the run),
and the outcome of each suite function — `Except.error msg` models the
function throwing an `Error` whose `.message` is `msg`. -/
structure TestEnv where
  serverUp : Bool
  lighthouse : Except String Bool
  browser : Except String Bool
  deployment : Except String Bool

/-- The `try { ... } catch (error) { ... }` blocks of
`runIntegrationTests`: a returned boolean yields PASSED/FAILED with the
`details` text, a thrown error yields FAILED with `error.message`. -/
def suiteOutcomeResult (desc details : String) : Except String Bool → SuiteResult
  | .ok ok =>
    { status := if ok then .PASSED else .FAILED
      description := desc, error := none, details := some details }
  | .error e =>
    { status := .FAILED, description := desc, error := some e, details := none }

/-- The SKIPPED entry recorded when `checkLocalServer()` fails
(`integration-test.js` lines 327-331 and 356-360). -/
def skippedResult (desc : String) : SuiteResult :=
  { status := .SKIPPED, description := desc
    error := some "Local server not accessible", details := none }

/-- Description string of the lighthouse suite. -/
def lighthouseDesc : String := "Lighthouse performance audit"

/-- Details string of the lighthouse suite. -/
def lighthouseDetails : String :=
  "Performance, accessibility, SEO, and best practices validation"

/-- Description string of the browser suite. -/
def browserDesc : String := "Cross-browser compatibility tests"

/-- Details string of the browser suite. -/
def browserDetails : String :=
  "Responsive design, animations, and accessibility across browsers"

/-- Description string of the deployment suite. -/
def deploymentDesc : String := "GitHub Pages deployment verification"

/-- Details string of the deployment suite. -/
def deploymentDetails : String :=
  "GitHub Actions, custom domain, HTTPS, and SEO validation"

/-- The `results` object accumulated by `runIntegrationTests`
(`integration-test.js` lines 309-402): suites run sequentially, each
recorded under its fixed name; a failed server probe records a SKIPPED
entry without invoking the suite function. -/
def runIntegrationResults (env : TestEnv) : List (String × SuiteResult) :=
  let results : List (String × SuiteResult) := []
  let results :=
    if CONFIG.runLocal then
      jsSet results "lighthouseAudit"
        (if !env.serverUp then skippedResult lighthouseDesc
         else suiteOutcomeResult lighthouseDesc lighthouseDetails env.lighthouse)
    else results
  let results :=
    if CONFIG.runLocal then
      jsSet results "browserTests"
        (if !env.serverUp then skippedResult browserDesc
         else suiteOutcomeResult browserDesc browserDetails env.browser)
    else results
  let results :=
    if CONFIG.runDeployment then
      jsSet results "deploymentVerification"
        (suiteOutcomeResult deploymentDesc deploymentDetails env.deployment)
    else results
  results

/-- Exit code of the runner (`integration-test.js` lines 427-441):
`runIntegrationTests` returns `report.summary.failed === 0` and the
entry point calls `process.exit(success ? 0 : 1)`. -/
def exitCode (env : TestEnv) : Nat :=
  if (summaryOf (runIntegrationResults env)).failed = 0 then 0 else 1

/-- Free-form environment metadata of the report
(`process.version`, `process.platform`, `process.arch`). -/
structure EnvMeta where
  node : String
  platform : String
  arch : String

/-- The static `requirements` object of the report
(`integration-test.js` lines 115-119). -/
def requirementsList : List (String × String) :=
  [("2.1", "GitHub Actions自動デプロイ"),
   ("2.2", "カスタムドメインHTTPS接続"),
   ("5.1", "3秒以内のファーストビュー表示")]

/-- The report object built by `generateComprehensiveReport`
(`integration-test.js` lines 98-125). -/
structure Report where
  timestamp : String
  testSuite : String
  environment : EnvMeta
  results : List (String × SuiteResult)
  summary : Summary
  requirements : List (String × String)

/-- Lines 99-125 of `integration-test.js`: assembles the report object
(the `summary.overallScore` property is assigned before the object is
serialized, so it is part of the rendered summary). -/
def generateComprehensiveReport (timestamp : String) (envMeta : EnvMeta)
    (results : List (String × SuiteResult)) : Report :=
  { timestamp := timestamp
    testSuite := "Integration Tests - 闘魂Elixir Landing Page"
    environment := envMeta
    results := results
    summary := summaryOf results
    requirements := requirementsList }

/-- One hexadecimal digit, lowercase, as produced by `JSON.stringify`
in `\u00XX` escapes. -/
def hexDigit (n : Nat) : String :=
  String.singleton (if n < 10 then Char.ofNat (48 + n) else Char.ofNat (87 + n))

/-- Escaping of one character inside a JSON string literal, following
`JSON.stringify`: quote, backslash and control characters are escaped,
everything else is emitted verbatim. -/
def jsonEscapeChar (c : Char) : String :=
  if c = '"' then "\\\""
  else if c = '\\' then "\\\\"
  else if c = Char.ofNat 8 then "\\b"
  else if c = '\t' then "\\t"
  else if c = '\n' then "\\n"
  else if c = Char.ofNat 12 then "\\f"
  else if c = '\r' then "\\r"
  else if c.toNat < 32 then "\\u00" ++ hexDigit (c.toNat / 16) ++ hexDigit (c.toNat % 16)
  else String.singleton c

/-- A JSON string literal for `s`, as produced by `JSON.stringify`. -/
def jsonQuote (s : String) : String :=
  "\"" ++ String.join (s.data.map jsonEscapeChar) ++ "\""

/-- Rendering of the `environment` sub-object at depth 1 of
`JSON.stringify(report, null, 2)`. -/
def envMetaJson (e : EnvMeta) : String :=
  "\x7b\n    \"node\": " ++ jsonQuote e.node ++
  ",\n    \"platform\": " ++ jsonQuote e.platform ++
  ",\n    \"arch\": " ++ jsonQuote e.arch ++ "\n  \x7d"

/-- Rendering of the optional `error` property of one suite entry;
absent properties are omitted by `JSON.stringify`. -/
def errorJson : Option String → String
  | some e => ",\n      \"error\": " ++ jsonQuote e
  | none => ""

/-- Rendering of the optional `details` property of one suite entry. -/
def detailsJson : Option String → String
  | some d => ",\n      \"details\": " ++ jsonQuote d
  | none => ""

/-- Rendering of one named suite entry inside the `results` sub-object,
property order as created by the source (`status`, `description`, then
`error` / `details` when present). -/
def resultEntryJson (p : String × SuiteResult) : String :=
  "    " ++ jsonQuote p.1 ++ ": \x7b\n      \"status\": " ++
  jsonQuote (statusText p.2.status) ++
  ",\n      \"description\": " ++ jsonQuote p.2.description ++
  errorJson p.2.error ++ detailsJson p.2.details ++ "\n    \x7d"

/-- Rendering of the `results` sub-object at depth 1 of
`JSON.stringify(report, null, 2)`. -/
def resultsJson (rs : List (String × SuiteResult)) : String :=
  if rs.isEmpty then "\x7b\x7d"
  else "\x7b\n" ++ String.intercalate ",\n" (rs.map resultEntryJson) ++ "\n  \x7d"

/-- Rendering of the `summary` sub-object, property order as created by
the source (`overallScore` assigned last, line 125). -/
def summaryJson (s : Summary) : String :=
  "\x7b\n    \"totalTestSuites\": " ++ toString s.totalTestSuites ++
  ",\n    \"passed\": " ++ toString s.passed ++
  ",\n    \"failed\": " ++ toString s.failed ++
  ",\n    \"skipped\": " ++ toString s.skipped ++
  ",\n    \"overallScore\": " ++ toString s.overallScore ++ "\n  \x7d"

/-- Rendering of the `requirements` sub-object. -/
def requirementsJson (reqs : List (String × String)) : String :=
  if reqs.isEmpty then "\x7b\x7d"
  else "\x7b\n" ++
    String.intercalate ",\n"
      (reqs.map fun p => "    " ++ jsonQuote p.1 ++ ": " ++ jsonQuote p.2) ++
    "\n  \x7d"

/-- Everything of the machine-readable report after the value of the
`timestamp` property (the remaining five properties of the report
object, none of which depends on the timestamp). -/
def machineTail (testSuite : String) (e : EnvMeta)
    (rs : List (String × SuiteResult)) (s : Summary)
    (reqs : List (String × String)) : String :=
  ",\n  \"testSuite\": " ++ jsonQuote testSuite ++
  ",\n  \"environment\": " ++ envMetaJson e ++
  ",\n  \"results\": " ++ resultsJson rs ++
  ",\n  \"summary\": " ++ summaryJson s ++
  ",\n  \"requirements\": " ++ requirementsJson reqs ++ "\n\x7d"

/-- The machine-readable rendering `JSON.stringify(report, null, 2)` of
`integration-test.js` line 128, for the fixed shape of the report
object: two-space pretty printing, properties in insertion order,
absent optional properties omitted. -/
def machineReport (r : Report) : String :=
  "\x7b\n  \"timestamp\": " ++ jsonQuote r.timestamp ++
  machineTail r.testSuite r.environment r.results r.summary r.requirements

/-- The `statusIcon` helper of `generateHTMLReport`
(`integration-test.js` lines 145-152); the source's `default` branch
(`'❓'`) is unreachable for the three status values. -/
def statusIcon : Status → String
  | .PASSED => "✅"
  | .FAILED => "❌"
  | .SKIPPED => "⏭️"

/-- The `statusColor` helper of `generateHTMLReport`
(`integration-test.js` lines 154-161); the source's `default` branch
(`'#6b7280'`) is unreachable for the three status values. -/
def statusColor : Status → String
  | .PASSED => "#22c55e"
  | .FAILED => "#ef4444"
  | .SKIPPED => "#f59e0b"

/-- Line 279 of `integration-test.js`:
`result.error ? `...Error: ${result.error}...` : ''` — by JS
truthiness an absent or empty `error` renders nothing. -/
def errorHTML : Option String → String
  | some e =>
    if e = "" then ""
    else "<p style=\"color: #ef4444; font-size: 0.9em;\">Error: " ++ e ++ "</p>"
  | none => ""

/-- Line 280 of `integration-test.js`: the optional `details` paragraph,
rendered only for a present, non-empty `details` property. -/
def detailsHTML : Option String → String
  | some d =>
    if d = "" then ""
    else "<p style=\"color: #6b7280; font-size: 0.9em;\">" ++ d ++ "</p>"
  | none => ""

/-- One entry of the results section of the HTML report
(`integration-test.js` lines 274-286), whitespace as in the template
literal. -/
def resultItemHTML (p : String × SuiteResult) : String :=
  "\n            <div class=\"result-item\">\n                <div class=\"result-info\">\n                    <h3>" ++
  statusIcon p.2.status ++ " " ++ p.1 ++
  "</h3>\n                    <p>" ++ p.2.description ++
  "</p>\n                    " ++ errorHTML p.2.error ++
  "\n                    " ++ detailsHTML p.2.details ++
  "\n                </div>\n                <div class=\"result-status\" style=\"background-color: " ++
  statusColor p.2.status ++ "\">\n                    " ++
  statusText p.2.status ++
  "\n                </div>\n            </div>\n        "

/-- One entry of the requirements list of the HTML report
(`integration-test.js` lines 292-294). -/
def requirementItemHTML (p : String × String) : String :=
  "\n                <li><strong>" ++ p.1 ++ ":</strong> " ++ p.2 ++
  "</li>\n            "

/-- Abstraction of `new Date(report.timestamp).toLocaleString('ja-JP')`
(`integration-test.js` line 299): the external locale-dependent date
formatter is modelled as the timestamp text itself; no verified claim
depends on its exact form. -/
def toLocaleStringJaJP (ts : String) : String := ts

/-- The static head of the HTML template (`integration-test.js` lines
163-250), up to the overall-score interpolation. -/
def htmlHead : String :=
  "\n<!DOCTYPE html>\n<html lang=\"ja\">\n<head>\n    <meta charset=\"UTF-8\">\n    <meta name=\"viewport\" content=\"width=device-width, initial-scale=1.0\">\n    <title>Integration Test Report - 闘魂Elixir</title>\n    <style>\n        body \x7b\n            font-family: -apple-system, BlinkMacSystemFont, \x27Segoe UI\x27, Roboto, sans-serif;\n            line-height: 1.6;\n            color: #333;\n            max-width: 1200px;\n            margin: 0 auto;\n            padding: 20px;\n            background: #f8fafc;\n        \x7d\n        .header \x7b\n            background: linear-gradient(135deg, #ff5b2e, #ffd166);\n            color: white;\n            padding: 30px;\n            border-radius: 12px;\n            margin-bottom: 30px;\n            text-align: center;\n        \x7d\n        .summary \x7b\n            display: grid;\n            grid-template-columns: repeat(auto-fit, minmax(200px, 1fr));\n            gap: 20px;\n            margin-bottom: 30px;\n        \x7d\n        .summary-card \x7b\n            background: white;\n            padding: 20px;\n            border-radius: 8px;\n            box-shadow: 0 2px 4px rgba(0,0,0,0.1);\n            text-align: center;\n        \x7d\n        .summary-card h3 \x7b\n            margin: 0 0 10px 0;\n            font-size: 2em;\n            font-weight: bold;\n        \x7d\n        .results \x7b\n            background: white;\n            border-radius: 8px;\n            box-shadow: 0 2px 4px rgba(0,0,0,0.1);\n            overflow: hidden;\n        \x7d\n        .result-item \x7b\n            padding: 20px;\n            border-bottom: 1px solid #e5e7eb;\n            display: flex;\n            align-items: center;\n            justify-content: space-between;\n        \x7d\n        .result-item:last-child \x7b\n            border-bottom: none;\n        \x7d\n        .result-info \x7b\n            flex: 1;\n        \x7d\n        .result-status \x7b\n            padding: 6px 12px;\n            border-radius: 20px;\n            font-weight: bold;\n            color: white;\n        \x7d\n        .requirements \x7b\n            background: white;\n            padding: 20px;\n            border-radius: 8px;\n            box-shadow: 0 2px 4px rgba(0,0,0,0.1);\n            margin-top: 30px;\n        \x7d\n        .timestamp \x7b\n            text-align: center;\n            color: #6b7280;\n            margin-top: 30px;\n            font-size: 0.9em;\n        \x7d\n    </style>\n</head>\n<body>\n    <div class=\"header\">\n        <h1>🔥 Integration Test Report</h1>\n        <h2>闘魂Elixir Landing Page</h2>\n        <p>Overall Score: "

/-- The human-readable rendering `generateHTMLReport(report)` of
`integration-test.js` lines 144-304. -/
def generateHTMLReport (r : Report) : String :=
  htmlHead ++ toString r.summary.overallScore ++
  "%</p>\n    </div>\n    \n    <div class=\"summary\">\n        <div class=\"summary-card\">\n            <h3 style=\"color: #22c55e\">" ++
  toString r.summary.passed ++
  "</h3>\n            <p>Tests Passed</p>\n        </div>\n        <div class=\"summary-card\">\n            <h3 style=\"color: #ef4444\">" ++
  toString r.summary.failed ++
  "</h3>\n            <p>Tests Failed</p>\n        </div>\n        <div class=\"summary-card\">\n            <h3 style=\"color: #f59e0b\">" ++
  toString r.summary.skipped ++
  "</h3>\n            <p>Tests Skipped</p>\n        </div>\n        <div class=\"summary-card\">\n            <h3>" ++
  toString r.summary.totalTestSuites ++
  "</h3>\n            <p>Total Test Suites</p>\n        </div>\n    </div>\n    \n    <div class=\"results\">\n        <h2 style=\"padding: 20px; margin: 0; background: #f8fafc; border-bottom: 1px solid #e5e7eb;\">Test Results</h2>\n        " ++
  String.join (r.results.map resultItemHTML) ++
  "\n    </div>\n    \n    <div class=\"requirements\">\n        <h2>Requirements Coverage</h2>\n        <ul>\n            " ++
  String.join (r.requirements.map requirementItemHTML) ++
  "\n        </ul>\n    </div>\n    \n    <div class=\"timestamp\">\n        Generated on " ++
  toLocaleStringJaJP r.timestamp ++
  "\n    </div>\n</body>\n</html>\n  "

/-- The JS regex character class `\s`: space, tab, line terminators,
vertical tab, form feed, NBSP, the Unicode space separators, and the
BOM. Used by `\s+`, `\s*` and `String.prototype.trim`. -/
def isJsSpace (c : Char) : Bool :=
  c = ' ' || c = '\t' || c = '\n' || c = '\r' ||
  c.toNat = 11 || c.toNat = 12 || c.toNat = 0xa0 || c.toNat = 0x1680 ||
  (0x2000 ≤ c.toNat && c.toNat ≤ 0x200a) ||
  c.toNat = 0x2028 || c.toNat = 0x2029 || c.toNat = 0x202f ||
  c.toNat = 0x205f || c.toNat = 0x3000 || c.toNat = 0xfeff

/-- Whether `*/` occurs somewhere in the text: decides whether a `/*`
opens a comment that the non-greedy regex `\/\*[\s\S]*?\*\//g` can
close (an unterminated `/*` is not matched and is kept verbatim). -/
def hasClose : List Char → Bool
  | [] => false
  | '*' :: '/' :: _ => true
  | _ :: rest => hasClose rest

/-- Global replacement `.replace(/\/\*[\s\S]*?\*\//g, '')` of `build.js`
(lines 15 and 32) as a two-mode scanner: mode `false` copies text and
enters a comment at `/*` when a closing `*/` exists further on; mode
`true` discards text up to and including the first `*/`. The
`true, [_]` state is unreachable because a comment is entered only when
`hasClose` holds. -/
def blockScan : Bool → List Char → List Char
  | _, [] => []
  | true, [_] => []
  | false, [c] => [c]
  | true, c :: d :: rest =>
    if c = '*' && d = '/' then blockScan false rest
    else blockScan true (d :: rest)
  | false, c :: d :: rest =>
    if c = '/' && d = '*' && hasClose rest then blockScan true rest
    else c :: blockScan false (d :: rest)

/-- The lookahead `[^\n]*['"`]` of the line-comment regex of `build.js`
line 30: does the remainder of the current line contain a single quote,
double quote or backtick? -/
def lineHasQuote : List Char → Bool
  | [] => false
  | c :: rest =>
    if c = '\n' then false
    else if c = Char.ofNat 39 || c = '"' || c = Char.ofNat 96 then true
    else lineHasQuote rest

/-- Global multiline replacement
`.replace(/\/\/(?![^\n]*['"`]).*$/gm, '')` of `build.js` line 30 as a
two-mode scanner: at `//` whose line remainder holds no quote character
the text up to (excluding) the newline is discarded; otherwise the
scanner advances one character, as the regex engine advances its start
position. -/
def lineScan : Bool → List Char → List Char
  | _, [] => []
  | true, c :: rest =>
    if c = '\n' then '\n' :: lineScan false rest else lineScan true rest
  | false, [c] => [c]
  | false, c :: d :: rest =>
    if c = '/' && d = '/' && !lineHasQuote rest then lineScan true rest
    else c :: lineScan false (d :: rest)

/-- Global replacement `.replace(/\s+/g, ' ')` of `build.js` (lines 17
and 34): every maximal run of whitespace becomes one space. -/
def collapseWhitespace : List Char → List Char
  | [] => []
  | [c] => if isJsSpace c then [' '] else [c]
  | c :: d :: rest =>
    if isJsSpace c then
      if isJsSpace d then collapseWhitespace (d :: rest)
      else ' ' :: collapseWhitespace (d :: rest)
    else c :: collapseWhitespace (d :: rest)

/-- Whether the text, after skipping whitespace, starts with a special
character — the lookahead deciding whether a whitespace run is absorbed
by a `\s*([...])\s*` match. -/
def followedBySpecial (special : Char → Bool) : List Char → Bool
  | [] => false
  | c :: rest => if isJsSpace c then followedBySpecial special rest else special c

/-- The character class `[{}:;,>+~]` of `build.js` line 19. -/
def cssSpecialChar (c : Char) : Bool :=
  c = Char.ofNat 123 || c = Char.ofNat 125 || c = ':' || c = ';' ||
  c = ',' || c = '>' || c = '+' || c = '~'

/-- The character class `[{}();,=+\-*/<>!&|]` of `build.js` line 36. -/
def jsSpecialChar (c : Char) : Bool :=
  c = Char.ofNat 123 || c = Char.ofNat 125 || c = '(' || c = ')' ||
  c = ';' || c = ',' || c = '=' || c = '+' || c = '-' || c = '*' ||
  c = '/' || c = '<' || c = '>' || c = '!' || c = '&' || c = '|'

/-- Global replacement `.replace(/\s*(X)\s*/g, '$1')` of `build.js`
(lines 19 and 36) as a scanner: a special character is kept while the
flag absorbs the whitespace run after it; a whitespace run whose first
non-space successor is special is deleted; all other text is copied. -/
def stripScan (special : Char → Bool) : Bool → List Char → List Char
  | _, [] => []
  | afterSpec, c :: rest =>
    if special c then c :: stripScan special true rest
    else if isJsSpace c then
      if afterSpec then stripScan special true rest
      else if followedBySpecial special rest then stripScan special false rest
      else c :: stripScan special false rest
    else c :: stripScan special false rest

/-- Global replacement `.replace(/;}/g, '}')` of `build.js` (lines 21
and 38), single left-to-right pass. -/
def stripSemiBrace : List Char → List Char
  | [] => []
  | [c] => [c]
  | c :: d :: rest =>
    if c = ';' && d = Char.ofNat 125 then Char.ofNat 125 :: stripSemiBrace rest
    else c :: stripSemiBrace (d :: rest)

/-- Final `.trim()` of `build.js` (lines 23 and 39): removes leading
and trailing whitespace. -/
def jsTrim (l : List Char) : List Char :=
  ((l.dropWhile isJsSpace).reverse.dropWhile isJsSpace).reverse

/-- The `minifyCSS` function of `build.js` (lines 12-24): block
comments, whitespace collapse, whitespace around `[{}:;,>+~]`, `;}`,
trim — in source order. -/
def minifyCSS (s : String) : String :=
  String.mk (jsTrim (stripSemiBrace (stripScan cssSpecialChar false
    (collapseWhitespace (blockScan false s.data)))))

/-- The `minifyJS` function of `build.js` (lines 27-40): line comments,
block comments, whitespace collapse, whitespace around
`[{}();,=+\-*/<>!&|]`, `;}`, trim — in source order. -/
def minifyJS (s : String) : String :=
  String.mk (jsTrim (stripSemiBrace (stripScan jsSpecialChar false
    (collapseWhitespace (blockScan false (lineScan false s.data))))))

/-- Prefix test on character lists, helper for stating substring
occurrence in rendered reports. -/
def isPrefixChars : List Char → List Char → Bool
  | [], _ => true
  | _ :: _, [] => false
  | a :: as, b :: bs => a = b && isPrefixChars as bs

/-- Occurrence of `needle` as a contiguous run inside the haystack. -/
def containsChars (needle : List Char) : List Char → Bool
  | [] => isPrefixChars needle []
  | c :: rest => isPrefixChars needle (c :: rest) || containsChars needle rest

/-- Substring occurrence test used to state containment properties of
the rendered reports. -/
def strContains (hay needle : String) : Bool :=
  containsChars needle.data hay.data

/-- The example result sequence of the spec's testable properties:
suite `a` PASSED, suite `b` FAILED with error text `timeout`. -/
def exampleResults : List (String × SuiteResult) :=
  [("a", { status := .PASSED, description := "", error := none, details := none }),
   ("b", { status := .FAILED, description := "", error := some "timeout", details := none })]

/-- Concrete environment metadata for instantiating report renderings. -/
def exampleEnvMeta : EnvMeta :=
  { node := "v20.0.0", platform := "linux", arch := "x64" }

/-- A concrete report over `exampleResults`. -/
def exampleReport : Report :=
  generateComprehensiveReport "2024-01-01T00:00:00.000Z" exampleEnvMeta exampleResults

/-- A concrete suite result used to instantiate replacement properties. -/
def exampleSuiteA : SuiteResult :=
  { status := .PASSED, description := "first", error := none, details := none }

/-- A second concrete suite result, distinct from `exampleSuiteA`. -/
def exampleSuiteB : SuiteResult :=
  { status := .FAILED, description := "second", error := some "x", details := none }

/-- Forty suite results (distinct names) of which the first 23 are
PASSED: the smallest total where the double-precision
`Math.round((passed/total)*100)` differs from exact half-up rounding of
`100·passed/total` (57 versus 58, since the double product is
57.49999999999999289…, just below 57.5). -/
def floatBoundaryResults : List (String × SuiteResult) :=
  (List.range 40).map fun i =>
    (String.mk (List.replicate i 'x'),
     if i < 23 then { status := .PASSED, description := "", error := none, details := none }
     else { status := .FAILED, description := "", error := none, details := none })

/-- Length of `List.dropWhile` never exceeds the input length. -/
theorem dropWhile_length_le (p : Char → Bool) (l : List Char) :
    (l.dropWhile p).length ≤ l.length := by
  induction l with
  | nil => simp
  | cons c rest ih =>
    rw [List.dropWhile_cons]
    split
    · exact Nat.le_succ_of_le ih
    · simp

/-- The three status counters always partition the result entries. -/
theorem countStatus_sum (rs : List (String × SuiteResult)) :
    countStatus .PASSED rs + countStatus .FAILED rs + countStatus .SKIPPED rs
      = rs.length := by
  induction rs with
  | nil => rfl
  | cons p rest ih =>
    simp only [countStatus, List.filter_cons] at ih ⊢
    cases h : p.2.status <;> simp [h] <;> omega

/-- Exact half-up rounding of `100 * p / t` as a natural-number
division, for stating comparisons with the double-precision score. -/
theorem round_ratio_eq (p t : ℕ) (ht : 0 < t) :
    round ((100 * p : ℚ) / t) = (((200 * p + t) / (2 * t) : ℕ) : ℤ) := by
  rw [round_eq]
  have htQ : (t : ℚ) ≠ 0 := Nat.cast_ne_zero.mpr ht.ne'
  have h : (100 * p : ℚ) / t + 1 / 2 = ((200 * p + t : ℕ) : ℚ) / ((2 * t : ℕ) : ℚ) := by
    push_cast
    field_simp
    ring
  rw [h, Rat.floor_natCast_div_natCast]
  exact (Int.ofNat_tdiv _ _).symm

/-- For totals up to 3 — every total the runner can produce — the
double-precision overall score coincides with exact half-up rounding. -/
theorem overallScoreOf_eq_round_of_le_three (p t : ℕ) (hp : p ≤ t)
    (h1 : 0 < t) (h3 : t ≤ 3) :
    ((overallScoreOf p t : ℕ) : ℤ) = round ((100 * p : ℚ) / t) := by
  rw [round_ratio_eq p t h1]
  have h : overallScoreOf p t = (200 * p + t) / (2 * t) := by
    interval_cases t <;> interval_cases p <;> decide
  exact_mod_cast h

/-- Setting a key always makes it readable with the written value. -/
theorem jsLookup_jsSet (rs : List (String × SuiteResult)) (k : String) (v : SuiteResult) :
    jsLookup (jsSet rs k v) k = some v := by
  induction rs with
  | nil => simp [jsSet, jsLookup]
  | cons p rest ih =>
    by_cases hk : p.1 = k
    · simp [jsSet, hk, jsLookup]
    · simp [jsSet, hk, jsLookup, ih]

/-- C1. For every score set `S` and threshold configuration `T` sharing a
category `c`, the evaluation of `c` is true iff `S[c] ≥ T[c]`, and the
overall audit pass result is the conjunction of the per-category
results over all categories of the score set. -/
theorem lighthouse_threshold_evaluation (S T : List (String × Int)) (c : String)
    (s t : Int) (hS : jsLookup S c = some s) (hT : jsLookup T c = some t) :
    (jsGe s (jsLookup T c) = true ↔ t ≤ s) ∧
    (allPassed S T = true ↔ ∀ p ∈ S, jsGe p.2 (jsLookup T p.1) = true) := by
  constructor
  · rw [hT]
    simp [jsGe]
  · simp [allPassed, List.all_eq_true]

/-- Witness for C1 at concrete inputs. -/
theorem lighthouse_threshold_evaluation_witness :
    (jsGe 95 (jsLookup lighthouseThresholds "performance") = true ↔ (90 : Int) ≤ 95) ∧
    (allPassed [("performance", 95)] lighthouseThresholds = true ↔
      ∀ p ∈ [("performance", (95 : Int))], jsGe p.2 (jsLookup lighthouseThresholds p.1) = true) :=
  lighthouse_threshold_evaluation [("performance", 95)] lighthouseThresholds
    "performance" 95 90 (by decide) (by decide)

/-- C5 counterexample. A category present in the score set but absent
from the threshold configuration is not unconstrained: with every
constrained category passing, adding the unconstrained category flips
the overall audit result to false, because the JS comparison
`score >= undefined` is false. -/
theorem unconstrained_category_counterexample :
    allPassed [("performance", 100), ("extra", 100)] lighthouseThresholds = false ∧
    allPassed [("performance", 100)] lighthouseThresholds = true ∧
    jsLookup lighthouseThresholds "extra" = none ∧
    jsGe 100 (jsLookup lighthouseThresholds "extra") = false := by
  decide

/-- C5 amended. A category present in the score set but absent from the
threshold configuration evaluates false and forces the overall audit
result to false. -/
theorem absent_threshold_forces_failure (S T : List (String × Int)) (c : String)
    (s : Int) (hm : (c, s) ∈ S) (hT : jsLookup T c = none) :
    jsGe s (jsLookup T c) = false ∧ allPassed S T = false := by
  constructor
  · rw [hT]
    rfl
  · simp only [allPassed]
    rw [List.all_eq_false]
    exact ⟨(c, s), hm, by simp [jsGe, hT]⟩

/-- Witness for the amended C5 at concrete inputs. -/
theorem absent_threshold_forces_failure_witness :
    jsGe 100 (jsLookup lighthouseThresholds "extra") = false ∧
    allPassed [("extra", (100 : Int))] lighthouseThresholds = false :=
  absent_threshold_forces_failure [("extra", 100)] lighthouseThresholds
    "extra" 100 (by decide) (by decide)

set_option maxRecDepth 20000 in
/-- C2 counterexample. At 23 passed of 40 results the double-precision
overall score of the program is 57 (the product
`(23/40)*100` rounds to 57.49999999999999289…), while exact half-up
rounding of `100·23/40 = 57.5` gives 58, so
`overallScore = round(100·passed/total)` fails for this sequence. -/
theorem summary_rounding_counterexample :
    (summaryOf floatBoundaryResults).passed = 23 ∧
    (summaryOf floatBoundaryResults).totalTestSuites = 40 ∧
    (summaryOf floatBoundaryResults).overallScore = 57 ∧
    round ((100 * ((summaryOf floatBoundaryResults).passed : ℕ) : ℚ)
        / ((summaryOf floatBoundaryResults).totalTestSuites : ℚ)) = 58 := by
  refine ⟨by decide, by decide, by decide, ?_⟩
  have h : round ((100 * (23 : ℕ) : ℚ) / ((40 : ℕ) : ℚ)) = ((58 : ℕ) : ℤ) := by
    rw [round_ratio_eq 23 40 (by norm_num)]
  have hp : (summaryOf floatBoundaryResults).passed = 23 := by decide
  have ht : (summaryOf floatBoundaryResults).totalTestSuites = 40 := by decide
  rw [hp, ht]
  simpa using h

/-- C2 (amended). For every result sequence the counters partition the
entries and the suite total is the length; the empty sequence yields
the all-zero summary with no division error; and for every total up to
3 — which covers every aggregate the runner can produce — the
double-precision overall score coincides with exact half-up rounding of
`100 * passed / total`. -/
theorem summary_invariant (rs : List (String × SuiteResult)) :
    (summaryOf rs).passed + (summaryOf rs).failed + (summaryOf rs).skipped = rs.length ∧
    (summaryOf rs).totalTestSuites = rs.length ∧
    (0 < rs.length → rs.length ≤ 3 →
      (((summaryOf rs).overallScore : ℕ) : ℤ)
        = round ((100 * ((summaryOf rs).passed : ℚ)) / (rs.length : ℚ))) ∧
    summaryOf [] = { totalTestSuites := 0, passed := 0, failed := 0
                     skipped := 0, overallScore := 0 } := by
  refine ⟨countStatus_sum rs, rfl, ?_, by decide⟩
  intro h1 h3
  exact overallScoreOf_eq_round_of_le_three (countStatus .PASSED rs) rs.length
    (List.length_filter_le _ _) h1 h3

/-- Witness for C2 at a concrete result sequence. -/
theorem summary_invariant_witness :
    0 < exampleResults.length ∧ exampleResults.length ≤ 3 ∧
    (((summaryOf exampleResults).overallScore : ℕ) : ℤ)
      = round ((100 * ((summaryOf exampleResults).passed : ℚ)) / (exampleResults.length : ℚ)) :=
  ⟨by decide, by decide, (summary_invariant exampleResults).2.2.1 (by decide) (by decide)⟩

/-- C3. When the server probe succeeds and the browser suite function
throws, the run still records all three suites: the browser entry is
FAILED carrying the thrown message, and the lighthouse and deployment
entries reflect their own outcomes. -/
theorem suite_failure_isolation (env : TestEnv) (msg : String)
    (hs : env.serverUp = true) (hb : env.browser = .error msg) :
    (runIntegrationResults env).length = 3 ∧
    (summaryOf (runIntegrationResults env)).totalTestSuites = 3 ∧
    jsLookup (runIntegrationResults env) "browserTests" =
      some { status := .FAILED, description := browserDesc
             error := some msg, details := none } ∧
    jsLookup (runIntegrationResults env) "lighthouseAudit" =
      some (suiteOutcomeResult lighthouseDesc lighthouseDetails env.lighthouse) ∧
    jsLookup (runIntegrationResults env) "deploymentVerification" =
      some (suiteOutcomeResult deploymentDesc deploymentDetails env.deployment) := by
  simp [runIntegrationResults, CONFIG, hs, hb, jsSet, jsLookup, summaryOf,
    suiteOutcomeResult, countStatus]

/-- Witness for C3 at a concrete environment. -/
theorem suite_failure_isolation_witness :
    ((runIntegrationResults
        { serverUp := true, lighthouse := .ok true
          browser := .error "boom", deployment := .ok true }).length = 3) ∧
    (summaryOf (runIntegrationResults
        { serverUp := true, lighthouse := .ok true
          browser := .error "boom", deployment := .ok true })).totalTestSuites = 3 ∧
    jsLookup (runIntegrationResults
        { serverUp := true, lighthouse := .ok true
          browser := .error "boom", deployment := .ok true }) "browserTests" =
      some { status := .FAILED, description := browserDesc
             error := some "boom", details := none } ∧
    jsLookup (runIntegrationResults
        { serverUp := true, lighthouse := .ok true
          browser := .error "boom", deployment := .ok true }) "lighthouseAudit" =
      some (suiteOutcomeResult lighthouseDesc lighthouseDetails (.ok true)) ∧
    jsLookup (runIntegrationResults
        { serverUp := true, lighthouse := .ok true
          browser := .error "boom", deployment := .ok true }) "deploymentVerification" =
      some (suiteOutcomeResult deploymentDesc deploymentDetails (.ok true)) :=
  suite_failure_isolation
    { serverUp := true, lighthouse := .ok true
      browser := .error "boom", deployment := .ok true } "boom" rfl rfl

/-- C4. The exit code is 0 iff the failed counter is zero and 1
otherwise, and it is a function of the failed counter alone, so SKIPPED
suites never affect it. -/
theorem exit_code_iff_no_failures (env : TestEnv) :
    (exitCode env = 0 ↔ (summaryOf (runIntegrationResults env)).failed = 0) ∧
    (exitCode env = 1 ↔ (summaryOf (runIntegrationResults env)).failed ≠ 0) ∧
    ∀ env₂ : TestEnv,
      (summaryOf (runIntegrationResults env)).failed
        = (summaryOf (runIntegrationResults env₂)).failed →
      exitCode env = exitCode env₂ := by
  refine ⟨?_, ?_, ?_⟩
  · unfold exitCode
    split <;> simp_all
  · unfold exitCode
    split <;> simp_all
  · intro env₂ h
    unfold exitCode
    rw [h]

/-- Witness for C4 at a concrete environment. -/
theorem exit_code_iff_no_failures_witness :
    exitCode { serverUp := false, lighthouse := .ok true
               browser := .ok true, deployment := .error "install failed" } = 1 :=
  (exit_code_iff_no_failures
    { serverUp := false, lighthouse := .ok true
      browser := .ok true, deployment := .error "install failed" }).2.1.mpr (by decide)

/-- C7. When the server probe fails, the lighthouse and browser suites
are recorded SKIPPED with error `Local server not accessible`, and the
recorded results do not depend on the two suite functions (they are
never invoked). -/
theorem server_down_skips_suites (env : TestEnv) (hs : env.serverUp = false) :
    jsLookup (runIntegrationResults env) "lighthouseAudit"
      = some (skippedResult lighthouseDesc) ∧
    jsLookup (runIntegrationResults env) "browserTests"
      = some (skippedResult browserDesc) ∧
    (skippedResult lighthouseDesc).status = .SKIPPED ∧
    (skippedResult lighthouseDesc).error = some "Local server not accessible" ∧
    ∀ lh br : Except String Bool,
      runIntegrationResults { env with lighthouse := lh, browser := br }
        = runIntegrationResults env := by
  refine ⟨?_, ?_, rfl, rfl, ?_⟩
  · simp [runIntegrationResults, CONFIG, hs, jsSet, jsLookup]
  · simp [runIntegrationResults, CONFIG, hs, jsSet, jsLookup]
  · intro lh br
    simp [runIntegrationResults, CONFIG, hs]

/-- Witness for C7 at a concrete environment. -/
theorem server_down_skips_suites_witness :
    jsLookup (runIntegrationResults
        { serverUp := false, lighthouse := .ok true
          browser := .ok true, deployment := .ok true }) "lighthouseAudit"
      = some (skippedResult lighthouseDesc) ∧
    jsLookup (runIntegrationResults
        { serverUp := false, lighthouse := .ok true
          browser := .ok true, deployment := .ok true }) "browserTests"
      = some (skippedResult browserDesc) :=
  ⟨(server_down_skips_suites
      { serverUp := false, lighthouse := .ok true
        browser := .ok true, deployment := .ok true } rfl).1,
   (server_down_skips_suites
      { serverUp := false, lighthouse := .ok true
        browser := .ok true, deployment := .ok true } rfl).2.1⟩

/-- C9. Recording a suite result under a name already present replaces
the previous entry: the entry count, the key sequence and the summary's
suite total are unchanged, and lookup yields the new value. -/
theorem record_same_name_replaces (rs : List (String × SuiteResult))
    (k : String) (v : SuiteResult) (h : k ∈ rs.map Prod.fst) :
    (jsSet rs k v).length = rs.length ∧
    jsLookup (jsSet rs k v) k = some v ∧
    (jsSet rs k v).map Prod.fst = rs.map Prod.fst ∧
    (summaryOf (jsSet rs k v)).totalTestSuites = (summaryOf rs).totalTestSuites := by
  refine ⟨?_, jsLookup_jsSet rs k v, ?_, ?_⟩ <;>
  · induction rs with
    | nil => simp at h
    | cons p rest ih =>
      by_cases hk : p.1 = k
      · simp [jsSet, hk, summaryOf]
      · have h₂ : k ∈ rest.map Prod.fst := by
          rcases List.mem_cons.mp h with h₁ | h₁
          · exact absurd h₁.symm hk
          · exact h₁
        have := ih h₂
        simp_all [jsSet, hk, summaryOf]

/-- Witness for C9 at a concrete results object. -/
theorem record_same_name_replaces_witness :
    (jsSet [("a", exampleSuiteA)] "a" exampleSuiteB).length = [("a", exampleSuiteA)].length ∧
    jsLookup (jsSet [("a", exampleSuiteA)] "a" exampleSuiteB) "a" = some exampleSuiteB ∧
    (jsSet [("a", exampleSuiteA)] "a" exampleSuiteB).map Prod.fst
      = [("a", exampleSuiteA)].map Prod.fst ∧
    (summaryOf (jsSet [("a", exampleSuiteA)] "a" exampleSuiteB)).totalTestSuites
      = (summaryOf [("a", exampleSuiteA)]).totalTestSuites :=
  record_same_name_replaces [("a", exampleSuiteA)] "a" exampleSuiteB (by decide)

set_option maxRecDepth 200000 in
/-- C6. For the example results, the summary is
`{passed 1, failed 1, skipped 0, overallScore 50}`; the HTML render
contains the PASSED indicator next to suite name `a`, the FAILED
indicator next to suite name `b`, and the literal error text `timeout`;
and the error / details fragments render nothing when the field is
absent. -/
theorem report_example_rendering :
    summaryOf exampleResults
      = { totalTestSuites := 2, passed := 1, failed := 1
          skipped := 0, overallScore := 50 } ∧
    strContains (generateHTMLReport exampleReport) "<h3>✅ a</h3>" = true ∧
    strContains (generateHTMLReport exampleReport) "<h3>❌ b</h3>" = true ∧
    strContains (generateHTMLReport exampleReport) "Error: timeout" = true ∧
    (∀ e : Option String, e = none → errorHTML e = "") ∧
    (∀ d : Option String, d = none → detailsHTML d = "") := by
  refine ⟨by decide, by decide, by decide, by decide, ?_, ?_⟩
  · intro e he
    rw [he]
    rfl
  · intro d hd
    rw [hd]
    rfl

/-- Witness for C6's field-absence conjuncts at concrete inputs. -/
theorem report_example_rendering_witness :
    errorHTML none = "" ∧ detailsHTML none = "" :=
  ⟨report_example_rendering.2.2.2.2.1 none rfl,
   report_example_rendering.2.2.2.2.2 none rfl⟩

/-- C8. Rendering the same result set and environment metadata twice
produces identical machine-readable output except for the value of the
timestamp property: the output splits as a prefix and suffix, shared by
the two renderings, around the quoted timestamp. -/
theorem machine_render_timestamp_only (e : EnvMeta)
    (rs : List (String × SuiteResult)) (t₁ t₂ : String) :
    ∃ pre suf : String,
      machineReport (generateComprehensiveReport t₁ e rs)
        = pre ++ jsonQuote t₁ ++ suf ∧
      machineReport (generateComprehensiveReport t₂ e rs)
        = pre ++ jsonQuote t₂ ++ suf :=
  ⟨"\x7b\n  \"timestamp\": ",
   machineTail "Integration Tests - 闘魂Elixir Landing Page" e rs
     (summaryOf rs) requirementsList,
   rfl, rfl⟩

/-- Block-comment removal never lengthens the text. -/
theorem blockScan_length_le (m : Bool) (l : List Char) :
    (blockScan m l).length ≤ l.length := by
  induction m, l using blockScan.induct with
  | case1 m => simp [blockScan]
  | case2 c => simp [blockScan]
  | case3 c => simp [blockScan]
  | case4 c d rest h ih =>
    simp only [blockScan, if_pos h, List.length_cons]
    omega
  | case5 c d rest h ih =>
    simp only [blockScan, if_neg h, List.length_cons] at ih ⊢
    omega
  | case6 c d rest h ih =>
    simp only [blockScan, if_pos h, List.length_cons]
    omega
  | case7 c d rest h ih =>
    simp only [blockScan, if_neg h, List.length_cons] at ih ⊢
    omega

/-- Line-comment removal never lengthens the text. -/
theorem lineScan_length_le (m : Bool) (l : List Char) :
    (lineScan m l).length ≤ l.length := by
  induction m, l using lineScan.induct with
  | case1 m => simp [lineScan]
  | case2 rest ih =>
    simp [lineScan]
    omega
  | case3 c rest h ih =>
    simp only [lineScan, if_neg h, List.length_cons]
    omega
  | case4 c => simp [lineScan]
  | case5 c d rest h ih =>
    simp only [lineScan, if_pos h, List.length_cons]
    omega
  | case6 c d rest h ih =>
    simp only [lineScan, if_neg h, List.length_cons] at ih ⊢
    omega

/-- Whitespace collapsing never lengthens the text. -/
theorem collapseWhitespace_length_le (l : List Char) :
    (collapseWhitespace l).length ≤ l.length := by
  induction l using collapseWhitespace.induct with
  | case1 => simp [collapseWhitespace]
  | case2 c h => simp [collapseWhitespace, h]
  | case3 c h => simp [collapseWhitespace, h]
  | case4 c d rest h₁ h₂ ih =>
    simp only [collapseWhitespace, if_pos h₁, if_pos h₂, List.length_cons] at ih ⊢
    omega
  | case5 c d rest h₁ h₂ ih =>
    simp only [collapseWhitespace, if_pos h₁, if_neg h₂, List.length_cons] at ih ⊢
    omega
  | case6 c d rest h ih =>
    simp only [collapseWhitespace, if_neg h, List.length_cons] at ih ⊢
    omega

/-- Removing whitespace around special characters never lengthens the
text. -/
theorem stripScan_length_le (special : Char → Bool) (m : Bool) (l : List Char) :
    (stripScan special m l).length ≤ l.length := by
  induction m, l using stripScan.induct special with
  | case1 m => simp [stripScan]
  | case2 afterSpec c rest h ih =>
    simp only [stripScan, if_pos h, List.length_cons]
    omega
  | case3 c rest h₁ h₂ ih =>
    simp [stripScan, h₁, h₂]
    omega
  | case4 afterSpec c rest h₁ h₂ h₃ h₄ ih =>
    simp only [stripScan, if_neg h₁, if_pos h₂, if_neg h₃, if_pos h₄, List.length_cons]
    omega
  | case5 afterSpec c rest h₁ h₂ h₃ h₄ ih =>
    simp only [stripScan, if_neg h₁, if_pos h₂, if_neg h₃, if_neg h₄, List.length_cons]
    omega
  | case6 afterSpec c rest h₁ h₂ ih =>
    simp only [stripScan, if_neg h₁, if_neg h₂, List.length_cons]
    omega

/-- The `;}` contraction never lengthens the text. -/
theorem stripSemiBrace_length_le (l : List Char) :
    (stripSemiBrace l).length ≤ l.length := by
  induction l using stripSemiBrace.induct with
  | case1 => simp [stripSemiBrace]
  | case2 c => simp [stripSemiBrace]
  | case3 c d rest h ih =>
    simp only [stripSemiBrace, if_pos h, List.length_cons]
    omega
  | case4 c d rest h ih =>
    simp only [stripSemiBrace, if_neg h, List.length_cons] at ih ⊢
    omega

/-- Trimming never lengthens the text. -/
theorem jsTrim_length_le (l : List Char) : (jsTrim l).length ≤ l.length := by
  unfold jsTrim
  calc (((l.dropWhile isJsSpace).reverse.dropWhile isJsSpace).reverse).length
      = ((l.dropWhile isJsSpace).reverse.dropWhile isJsSpace).length :=
        List.length_reverse _
    _ ≤ (l.dropWhile isJsSpace).reverse.length := dropWhile_length_le _ _
    _ = (l.dropWhile isJsSpace).length := List.length_reverse _
    _ ≤ l.length := dropWhile_length_le _ _

/-- C10. Minification never grows its input: for every string, the
output of `minifyCSS` and of `minifyJS` is at most as long as the
input, so the reported size reduction is never negative. -/
theorem minify_never_grows (s : String) :
    (minifyCSS s).length ≤ s.length ∧ (minifyJS s).length ≤ s.length := by
  refine ⟨?_, ?_⟩
  · exact le_trans (jsTrim_length_le _)
      (le_trans (stripSemiBrace_length_le _)
        (le_trans (stripScan_length_le _ _ _)
          (le_trans (collapseWhitespace_length_le _)
            (blockScan_length_le _ _))))
  · exact le_trans (jsTrim_length_le _)
      (le_trans (stripSemiBrace_length_le _)
        (le_trans (stripScan_length_le _ _ _)
          (le_trans (collapseWhitespace_length_le _)
            (le_trans (blockScan_length_le _ _)
              (lineScan_length_le _ _)))))
